import Mathlib

/-!
Shallow embedding of `src/BoxOffice.py` (FastAPI box-office service).

Modelling conventions:
* Python `float` fields (`averageRating`) are modelled as `ℚ`; `int` fields as `Int`;
  `str` as `String`; `Optional[T]` as `Option T`.
* An HTTP request to an endpoint is modelled as a pure function from the upstream
  response (status code, body text, parsed payload) and the query parameters to
  `Except Err result`.  `Err` collects the ways a request fails in the source:
  FastAPI's query-parameter validation (`Query(le=10)`), the `HTTPException`
  raised by `IMDBClient.get_box_office_movies` and by the `except` blocks, and the
  Python `TypeError`s raised by `None`-valued fields (`len(None)`,
  `f"{None:.1f}"`, `x in None`).
* The third-party `tabulate` call and the `HTMLResponse`/`PlainTextResponse`
  wrappers are external presentation collaborators; an endpoint's rendered output
  is modelled as its `table_data` rows (`List (List String)`), the last value the
  repository's own code computes before handing off to `tabulate`.
* Python's `list.sort(key=k)` / `list.sort(key=k, reverse=True)` is a stable
  sort; it is modelled by `List.mergeSort` (stable) with the boolean relation
  `k a ≤ k b` (resp. `k b ≤ k a`).
* Python slicing `movies[:limit]` (with `limit` a possibly negative `int`) is
  modelled by `pySlice`.
-/

namespace BoxOffice

/-- Pydantic model `ProductionCompany` in `BoxOffice.py`. -/
structure ProductionCompany where
  id : String
  name : String
deriving DecidableEq, Repr

/-- Pydantic model `Movie` in `BoxOffice.py`: the record shape parsed from the
upstream JSON payload.  Optional pydantic fields become `Option`. -/
structure Movie where
  id : String
  url : String
  primaryTitle : String
  originalTitle : String
  type : String
  description : Option String
  primaryImage : Option String
  contentRating : Option String
  startYear : Option Int
  endYear : Option Int
  releaseDate : Option String
  interests : Option (List String)
  countriesOfOrigin : Option (List String)
  externalLinks : Option (List String) := none
  spokenLanguages : Option (List String)
  filmingLocations : Option (List String)
  productionCompanies : Option (List ProductionCompany)
  budget : Option Int
  grossWorldwide : Option Int
  genres : Option (List String)
  isAdult : Bool
  runtimeMinutes : Option Int
  averageRating : Option ℚ
  numVotes : Option Int
  weekendGrossAmount : Option Int
  weekendGrossCurrency : Option String
  lifetimeGrossAmount : Option Int
  lifetimeGrossCurrency : Option String
  weeksRunning : Option Int
deriving DecidableEq, Repr

/-- Enum `SortOption` in `BoxOffice.py`: the accepted values of the `sort_by`
query parameter. -/
inductive SortOption where
  | rating
  | gross
  | release
  | title
deriving DecidableEq, Repr

/-- The ways a request fails in the source.
`validation` is FastAPI rejecting a query parameter (`Query(le=10)`) before the
handler runs; `httpException s d` is `fastapi.HTTPException(status_code=s,
detail=d)`; `typeError` is a Python `TypeError` raised inside a handler
(`len(None)`, `f"{None:.1f}"`, `x in None`). -/
inductive Err where
  | validation
  | httpException (statusCode : Nat) (detail : String)
  | typeError
deriving DecidableEq, Repr

/-- The upstream provider's HTTP response as the handler sees it:
`response.status_code`, `response.text`, and the `Movie` list obtained from
`response.json()` when the body parses. -/
structure UpstreamResponse where
  statusCode : Nat
  body : String
  payload : List Movie

/-- Method `IMDBClient.get_box_office_movies` (lines 92-99): raise
`HTTPException(status_code=response.status_code, detail=response.text)` unless
the status is 200, otherwise return the parsed movie list. -/
def get_box_office_movies (resp : UpstreamResponse) : Except Err (List Movie) :=
  if resp.statusCode ≠ 200 then
    Except.error (Err.httpException resp.statusCode resp.body)
  else
    Except.ok resp.payload

/-- Python truthiness of an optional int (`if m.weekendGrossAmount`):
`None` and `0` are falsy. -/
def truthyOptInt : Option Int → Bool
  | none => false
  | some n => decide (n ≠ 0)

/-- Python truthiness of an optional float (`if m.averageRating`):
`None` and `0.0` are falsy. -/
def truthyOptRat : Option ℚ → Bool
  | none => false
  | some q => decide (q ≠ 0)

/-- Python slicing `l[:k]` for an arbitrary integer `k`: a nonnegative `k`
keeps the first `k` elements; a negative `k` drops the last `|k|` elements
(`Int.toNat` clamps a negative length to `0`). -/
def pySlice {α : Type} (l : List α) (k : Int) : List α :=
  if 0 ≤ k then l.take k.toNat else l.take ((l.length : Int) + k).toNat

/-- Sort key of `sort_by=rating`: `lambda x: x.averageRating or 0`
(`None` — and `0.0`, which maps to the same key value — become `0`). -/
def ratingKey (m : Movie) : ℚ := m.averageRating.getD 0

/-- Sort key of `sort_by=gross`: `lambda x: x.weekendGrossAmount or 0`. -/
def grossKey (m : Movie) : Int := m.weekendGrossAmount.getD 0

/-- Sort key of `sort_by=release`: `lambda x: x.releaseDate or ""`. -/
def releaseKey (m : Movie) : String := m.releaseDate.getD ("")

/-- The comparator of each sort option, as a boolean total preorder: `reverse=True`
sorts (stably) so that earlier elements have keys ≥ later ones; `title` sorts
ascending by `primaryTitle` (case-sensitive code-point order, as in Python). -/
def sortLe : SortOption → Movie → Movie → Bool
  | SortOption.rating => fun a b => decide (ratingKey b ≤ ratingKey a)
  | SortOption.gross => fun a b => decide (grossKey b ≤ grossKey a)
  | SortOption.release => fun a b => decide (releaseKey b ≤ releaseKey a)
  | SortOption.title => fun a b => decide (a.primaryTitle ≤ b.primaryTitle)

/-- The sort block of `get_movies` / `get_movies_table` (lines 125-133):
Python's stable `list.sort` with the selected key, modelled by the stable
`List.mergeSort`. -/
def sortMovies (s : SortOption) (l : List Movie) : List Movie :=
  l.mergeSort (sortLe s)

/-- Thousands-grouping of a reversed digit string: insert `,` before every
digit whose (0-based) position from the right is a positive multiple of 3. -/
def commaRevAux : List Char → Nat → List Char
  | [], _ => []
  | c :: rest, k =>
    if k ≠ 0 ∧ k % 3 = 0 then ',' :: c :: commaRevAux rest (k + 1)
    else c :: commaRevAux rest (k + 1)

/-- Python `f"{n:,}"` for an int `n`: decimal digits grouped in threes by commas. -/
def pyCommaFormat (n : Int) : String :=
  let digits := Nat.repr n.natAbs
  let grouped := String.mk (commaRevAux digits.toList.reverse 0).reverse
  if n < 0 then "-" ++ grouped else grouped

/-- Round to the nearest integer, ties to even — the rounding used by Python's
fixed-point float formatting. -/
def roundHalfEven (q : ℚ) : Int :=
  let fl := ⌊q⌋
  let fr := q - fl
  if fr > 1/2 then fl + 1
  else if fr < 1/2 then fl
  else if fl % 2 = 0 then fl else fl + 1

/-- Python `f"{x:.1f}"` on a nonnegative rating value: one decimal place.
(Source ratings lie in [0,10]; the sign handling below covers the general case
except Python's `-0.0` display, which is unreachable here.) -/
def fmt1f (q : ℚ) : String :=
  let n := roundHalfEven (q * 10)
  let sign := if n < 0 then "-" else ""
  sign ++ Nat.repr (n.natAbs / 10) ++ "." ++ Nat.repr (n.natAbs % 10)

/-- The Weekend Gross cell of the text table (line 174):
`f"${m.weekendGrossAmount:,}" if m.weekendGrossAmount else "N/A"`. -/
def grossCellText (g : Option Int) : String :=
  if truthyOptInt g then "$" ++ pyCommaFormat (g.getD 0) else "N/A"

/-- The Gross cell of the markup tables (lines 213/265/314):
`f"${movie.weekendGrossAmount:,.2f}" if movie.weekendGrossAmount else "N/A"`;
`:,.2f` applied to an int always ends in `.00`. -/
def grossCellMarkup (g : Option Int) : String :=
  if truthyOptInt g then "$" ++ pyCommaFormat (g.getD 0) ++ ".00" else "N/A"

/-- The Runtime cell (`f"{movie.runtimeMinutes} min"`): Python's f-string
renders `None` as the text `None`, so no error is raised. -/
def runtimeCell (r : Option Int) : String :=
  (match r with
    | some n => toString n
    | none => "None") ++ " min"

/-- The Release cell of the markup tables: the raw `movie.startYear`; `tabulate`
renders a missing value (`None`) as the empty string (its default `missingval`). -/
def releaseCellMarkup (y : Option Int) : String :=
  match y with
  | some n => toString n
  | none => ""

/-- The Description cell (line 175):
`m.description[:50] + "..." if len(m.description) > 50 else m.description`. -/
def descCell (d : String) : String :=
  if 50 < d.length then d.take 50 ++ "..." else d

/-- One row of `table_data` in `get_movies_table` (lines 169-177), in the
evaluation order of the list display: `f"{m.averageRating:.1f}"` raises
`TypeError` when the rating is `None`, and `len(m.description)` raises
`TypeError` when the description is `None`. -/
def tableRow (m : Movie) : Except Err (List String) :=
  match m.averageRating with
  | none => Except.error Err.typeError
  | some r =>
    match m.description with
    | none => Except.error Err.typeError
    | some d =>
      Except.ok [m.primaryTitle, fmt1f r, m.releaseDate.getD (""),
        grossCellText m.weekendGrossAmount, descCell d]

/-- One formatted entry of the markup endpoints (`get_movies_rating` /
`get_movies_genre` / `get_movies_highest_opening`, lines 208-227 etc.):
`f"{movie.averageRating:.1f}"` raises `TypeError` when the rating is `None`;
the other cells tolerate missing values. -/
def markupRow (m : Movie) : Except Err (List String) :=
  match m.averageRating with
  | none => Except.error Err.typeError
  | some r =>
    Except.ok [m.primaryTitle, fmt1f r, grossCellMarkup m.weekendGrossAmount,
      releaseCellMarkup m.startYear, runtimeCell m.runtimeMinutes]

/-- Python `str(e)` for the exceptions that can reach the `except` block of
`get_movies_rating`: starlette's `HTTPException.__str__` is
`f"{self.status_code}: {self.detail}"`; a `TypeError` from formatting a `None`
rating carries Python's message for `__format__` on `NoneType`; `validation`
never reaches a handler body. -/
def errStr : Err → String
  | Err.httpException s d => toString s ++ ": " ++ d
  | Err.typeError => "unsupported format string passed to NoneType.__format__"
  | Err.validation => "validation"

/-- The `except Exception` block of `get_movies_genre` and
`get_movies_highest_opening`: any exception (including an `HTTPException` from
the fetch) is replaced by `HTTPException(500, "Internal server error")`. -/
def catch500 {α : Type} : Except Err α → Except Err α
  | Except.ok a => Except.ok a
  | Except.error _ => Except.error (Err.httpException 500 "Internal server error")

/-- The `except Exception as e` block of `get_movies_rating`: any exception is
replaced by `HTTPException(500, str(e))`. -/
def catchStr {α : Type} : Except Err α → Except Err α
  | Except.ok a => Except.ok a
  | Except.error e => Except.error (Err.httpException 500 (errStr e))

/-- FastAPI query validation of `limit: int = Query(default=5, le=10)`:
the request is rejected with a validation error (HTTP 422) before the handler
runs when `limit > 10`; there is no lower bound, so any `limit ≤ 10`
(including 0 and negatives) reaches the handler. -/
def limitOk (limit : Int) : Bool := decide (limit ≤ 10)

/-- Endpoint `GET /movies` (`get_movies`, lines 109-139): validate `limit`,
fetch, stable-sort by `sort_by`, slice to `limit`.  The handler returns the
movie list itself (serialization through `MovieSummary` is framework-layer). -/
def get_movies (resp : UpstreamResponse) (sort_by : SortOption) (limit : Int) :
    Except Err (List Movie) :=
  if limitOk limit then
    (get_box_office_movies resp).map fun movies => pySlice (sortMovies sort_by movies) limit
  else Except.error Err.validation

/-- Endpoint `GET /movies/table` (`get_movies_table`, lines 141-183): validate,
fetch, stable-sort, slice, then build `table_data`; no `except` block, so
errors propagate unchanged. -/
def get_movies_table (resp : UpstreamResponse) (sort_by : SortOption) (limit : Int) :
    Except Err (List (List String)) :=
  if limitOk limit then do
    let movies ← get_box_office_movies resp
    (pySlice (sortMovies sort_by movies) limit).mapM tableRow
  else Except.error Err.validation

/-- The selection step of `get_movies_rating` (lines 203-205):
`[m for m in movies if m.averageRating]` (truthiness: absent or `0.0` rating is
dropped), stable sort by `averageRating` descending, slice.  On the filtered
list the sort key `lambda x: x.averageRating` agrees with `ratingKey`. -/
def ratingSelect (movies : List Movie) (limit : Int) : List Movie :=
  pySlice ((movies.filter fun m => truthyOptRat m.averageRating).mergeSort
    (sortLe SortOption.rating)) limit

/-- Endpoint `GET /movies/rating` (`get_movies_rating`, lines 185-235): its
`except Exception as e` block converts any in-handler exception to
`HTTPException(500, str(e))`.  (The unused `sort_by` parameter is omitted.) -/
def get_movies_rating (resp : UpstreamResponse) (limit : Int) :
    Except Err (List (List String)) :=
  if limitOk limit then
    catchStr (do
      let movies ← get_box_office_movies resp
      (ratingSelect movies limit).mapM markupRow)
  else Except.error Err.validation

/-- The genre filter of `get_movies_genre` (line 256):
`[m for m in movies if genre in m.genres]`.  When a record's `genres` is `None`,
`genre in None` raises `TypeError`; an empty list simply fails the membership
test. -/
def pyGenreFilter (genre : String) : List Movie → Except Err (List Movie)
  | [] => Except.ok []
  | m :: rest =>
    match m.genres with
    | none => Except.error Err.typeError
    | some gs => do
      let tail ← pyGenreFilter genre rest
      pure (if genre ∈ gs then m :: tail else tail)

/-- The selection step of `get_movies_genre` (lines 253-257): genre filter then
slice — no sort. -/
def genreSelect (genre : String) (movies : List Movie) (limit : Int) :
    Except Err (List Movie) :=
  (pyGenreFilter genre movies).map fun ms => pySlice ms limit

/-- Endpoint `GET /movies/genre` (`get_movies_genre`, lines 238-287): its
`except Exception` block converts any in-handler exception to
`HTTPException(500, "Internal server error")`. -/
def get_movies_genre (resp : UpstreamResponse) (genre : String) (limit : Int) :
    Except Err (List (List String)) :=
  if limitOk limit then
    catch500 (do
      let movies ← get_box_office_movies resp
      let selected ← genreSelect genre movies limit
      selected.mapM markupRow)
  else Except.error Err.validation

/-- The selection step of `get_movies_highest_opening` (lines 303-306):
`[m for m in movies if m.weekendGrossAmount]` (absent or `0` gross is dropped),
stable sort by `weekendGrossAmount` descending, slice. -/
def highestSelect (movies : List Movie) (limit : Int) : List Movie :=
  pySlice ((movies.filter fun m => truthyOptInt m.weekendGrossAmount).mergeSort
    (sortLe SortOption.gross)) limit

/-- Endpoint `GET /movies/highest_opening` (`get_movies_highest_opening`,
lines 290-336): its `except Exception` block converts any in-handler exception
to `HTTPException(500, "Internal server error")`. -/
def get_movies_highest_opening (resp : UpstreamResponse) (limit : Int) :
    Except Err (List (List String)) :=
  if limitOk limit then
    catch500 (do
      let movies ← get_box_office_movies resp
      (highestSelect movies limit).mapM markupRow)
  else Except.error Err.validation

/-- Test fixture: a movie with the fields the claims exercise; the remaining
fields take fixed innocuous values. -/
def mkMovie (title : String) (rating : Option ℚ) (gross : Option Int)
    (genres : Option (List String)) (desc : Option String) : Movie :=
  { id := title, url := "", primaryTitle := title, originalTitle := title,
    type := "movie", description := desc, primaryImage := none,
    contentRating := none, startYear := some 2024, endYear := none,
    releaseDate := some "2024-01-01", interests := none,
    countriesOfOrigin := none, externalLinks := none, spokenLanguages := none,
    filmingLocations := none, productionCompanies := none, budget := none,
    grossWorldwide := none, genres := genres, isAdult := false,
    runtimeMinutes := some 100, averageRating := rating, numVotes := none,
    weekendGrossAmount := gross, weekendGrossCurrency := none,
    lifetimeGrossAmount := none, lifetimeGrossCurrency := none,
    weeksRunning := none }

/-- Fixture: a complete record. -/
def movA : Movie :=
  mkMovie ("A") (some 7) (some 100) (some ["Action"]) (some "alpha")

/-- Fixture: a second complete record with the same rating as `movA`. -/
def movB : Movie :=
  mkMovie ("B") (some 7) (some 50) (some ["Drama"]) (some "beta")

/-- Fixture: a third complete record with a higher rating. -/
def movC : Movie :=
  mkMovie ("C") (some 9) (some 200) (some ["Action", "Drama"]) (some "gamma")

/-- Fixture: a record whose `genres` field is absent (`None`). -/
def movNoGenres : Movie :=
  mkMovie ("NG") (some 5) (some 10) none (some "no genres")

/-- Fixture: a record whose `description` field is absent (`None`). -/
def movNoDesc : Movie :=
  mkMovie ("ND") (some 5) (some 10) (some ["Action"]) none

/-- Fixture: a genre-matching record whose `averageRating` is absent (`None`). -/
def movNoRating : Movie :=
  mkMovie ("NR") none (some 10) (some ["Action"]) (some "no rating")

/-- Fixture: a record with rating present but equal to `0.0`. -/
def movZeroRating : Movie :=
  mkMovie ("ZR") (some 0) (some 10) (some ["Action"]) (some "zero rating")

/-- Fixture: a record with `weekendGrossAmount` present but equal to `0`. -/
def movZeroGross : Movie :=
  mkMovie ("ZG") (some 6) (some 0) (some ["Action"]) (some "zero gross")

/-- Fixture: an upstream 200 response carrying `movA` and `movB`. -/
def respAB : UpstreamResponse := ⟨200, "", [movA, movB]⟩

/-- Fixture: an upstream 503 response. -/
def resp503 : UpstreamResponse := ⟨503, "Service Unavailable", []⟩

/-! Helper lemmas shared by the claim theorems. -/

theorem sortLe_trans (s : SortOption) (a b c : Movie)
    (hab : sortLe s a b = true) (hbc : sortLe s b c = true) :
    sortLe s a c = true := by
  cases s <;> simp only [sortLe, decide_eq_true_eq] at hab hbc ⊢ <;>
    first
    | exact le_trans hbc hab
    | exact le_trans hab hbc

theorem sortLe_total (s : SortOption) (a b : Movie) :
    sortLe s a b || sortLe s b a := by
  cases s <;> simp only [sortLe, Bool.or_eq_true, decide_eq_true_eq] <;>
    exact le_total _ _

theorem mem_of_mem_pySlice {α : Type} {a : α} {l : List α} {k : Int}
    (h : a ∈ pySlice l k) : a ∈ l := by
  unfold pySlice at h
  split at h <;> exact List.take_subset _ _ h

theorem length_pySlice {α : Type} (l : List α) {k : Int} (hk : 0 ≤ k) :
    (pySlice l k).length = min k.toNat l.length := by
  unfold pySlice
  rw [if_pos hk, List.length_take]

theorem pyGenreFilter_ok (genre : String) (movies : List Movie)
    (h : ∀ m ∈ movies, m.genres ≠ none) :
    pyGenreFilter genre movies =
      Except.ok (movies.filter fun m => decide (genre ∈ m.genres.getD [])) := by
  induction movies with
  | nil => rfl
  | cons m rest ih =>
    have hm : m.genres ≠ none := h m (List.mem_cons_self m rest)
    obtain ⟨gs, hgs⟩ := Option.ne_none_iff_exists'.mp hm
    have hrest := ih fun x hx => h x (List.mem_cons_of_mem m hx)
    simp only [pyGenreFilter, hgs, hrest, List.filter_cons, Option.getD_some]
    by_cases hmem : genre ∈ gs <;> simp [hmem]

theorem pyGenreFilter_error (genre : String) (movies : List Movie)
    (h : ∃ m ∈ movies, m.genres = none) :
    pyGenreFilter genre movies = Except.error Err.typeError := by
  induction movies with
  | nil => simp at h
  | cons m rest ih =>
    obtain ⟨x, hx, hxg⟩ := h
    rcases List.mem_cons.mp hx with hx | hx
    · subst hx
      simp [pyGenreFilter, hxg]
    · cases hmg : m.genres with
      | none => simp [pyGenreFilter, hmg]
      | some gs =>
        have := ih ⟨x, hx, hxg⟩
        simp [pyGenreFilter, hmg, this]

theorem mapM_not_ok_of_mem {α β : Type} {f : α → Except Err β} {l : List α}
    {a : α} (ha : a ∈ l) (he : ∀ b, f a ≠ Except.ok b) :
    ∀ rows, l.mapM f ≠ Except.ok rows := by
  induction l with
  | nil => simp at ha
  | cons x rest ih =>
    intro rows hok
    rw [List.mapM_cons] at hok
    rcases List.mem_cons.mp ha with hax | hax
    · subst hax
      cases hfa : f a with
      | error e => rw [hfa] at hok; exact Except.noConfusion hok
      | ok b => exact he b hfa
    · cases hfx : f x with
      | error e => rw [hfx] at hok; exact Except.noConfusion hok
      | ok b =>
        rw [hfx] at hok
        cases hrest : rest.mapM f with
        | error e =>
          rw [hrest] at hok
          exact Except.noConfusion hok
        | ok bs => exact ih hax bs hrest

theorem except_bind_ok {α β : Type} (a : α) (f : α → Except Err β) :
    (Except.ok a >>= f) = f a := rfl

theorem except_bind_error {α β : Type} (e : Err) (f : α → Except Err β) :
    ((Except.error e : Except Err α) >>= f) = Except.error e := rfl

theorem except_map_error {α β : Type} (e : Err) (f : α → β) :
    Except.map f (Except.error e : Except Err α) = Except.error e := rfl

theorem except_map_ok {α β : Type} (a : α) (f : α → β) :
    Except.map f (Except.ok a : Except Err α) = Except.ok (f a) := rfl

theorem except_not_ok_iff {α : Type} {x : Except Err α} :
    (∀ a, x ≠ Except.ok a) ↔ ∃ e, x = Except.error e := by
  cases x <;> simp

theorem catch500_of_error {α : Type} {x : Except Err α}
    (h : ∃ e, x = Except.error e) :
    catch500 x = Except.error (Err.httpException 500 ("Internal server error")) := by
  obtain ⟨e, he⟩ := h
  subst he
  rfl

/-! Claim theorems. -/

/-- C1 counterexample: with a healthy two-record snapshot, `limit = 11` is
rejected by the `Query(le=10)` validation (the claim says it is clamped to 10
and succeeds), and `limit = 0` (below 1) is accepted and succeeds with an empty
result (the claim says it fails with `InvalidQuery`). -/
theorem C1_counterexample :
    get_movies respAB SortOption.gross 11 = Except.error Err.validation ∧
    get_movies respAB SortOption.gross 0 = Except.ok [] := by
  refine ⟨rfl, ?_⟩
  simp only [get_movies, get_box_office_movies, respAB, limitOk, pySlice]
  rfl

/-- C1 (amended): for every entry point, a limit above the maximum 10 is
rejected with a validation error before the handler runs (not clamped), while
a limit of at most 10 — including every limit below 1 — passes validation; in
particular `getSummaries` then succeeds whenever the fetch succeeds, returning
the Python slice `movies[:limit]` of the sorted snapshot. -/
theorem C1_limit_validation (resp : UpstreamResponse) (sort_by : SortOption)
    (genre : String) (limit : Int) :
    (10 < limit →
      get_movies resp sort_by limit = Except.error Err.validation ∧
      get_movies_table resp sort_by limit = Except.error Err.validation ∧
      get_movies_rating resp limit = Except.error Err.validation ∧
      get_movies_genre resp genre limit = Except.error Err.validation ∧
      get_movies_highest_opening resp limit = Except.error Err.validation) ∧
    (limit ≤ 10 → resp.statusCode = 200 →
      get_movies resp sort_by limit =
        Except.ok (pySlice (sortMovies sort_by resp.payload) limit)) := by
  constructor
  · intro hgt
    have hnot : limitOk limit = false := by
      simp only [limitOk, decide_eq_false_iff_not, not_le]
      exact hgt
    refine ⟨?_, ?_, ?_, ?_, ?_⟩ <;>
      simp [get_movies, get_movies_table, get_movies_rating, get_movies_genre,
        get_movies_highest_opening, hnot]
  · intro hle h200
    have hok : limitOk limit = true := by
      simp only [limitOk, decide_eq_true_eq]
      exact hle
    simp only [get_movies, hok, get_box_office_movies, h200, if_true]
    rfl

/-- C1 witness: the amended theorem applied at `limit = 11` and `limit = 0`. -/
theorem C1_limit_validation_witness :
    get_movies respAB SortOption.rating 11 = Except.error Err.validation ∧
    get_movies respAB SortOption.rating 0 =
      Except.ok (pySlice (sortMovies SortOption.rating respAB.payload) 0) :=
  ⟨((C1_limit_validation respAB SortOption.rating ("Action") 11).1
      (by norm_num)).1,
   (C1_limit_validation respAB SortOption.rating ("Action") 0).2
      (by norm_num) rfl⟩

/-- C2 counterexample: applying the genre filter to a record whose `genres`
field is absent raises `TypeError` — the claim says such a record is excluded
and the filter never raises. -/
theorem C2_counterexample :
    pyGenreFilter ("Action") [movNoGenres] = Except.error Err.typeError := rfl

/-- C2 (amended): a record passes the genre filter iff its `genres` sequence is
present and contains the genre (case-sensitive exact match); a record with an
empty `genres` list never passes and raises nothing; but a record whose
`genres` field is absent makes the whole filter raise `TypeError` instead of
being excluded. -/
theorem C2_genre_filter (genre : String) (movies : List Movie) :
    ((∀ m ∈ movies, m.genres ≠ none) →
      pyGenreFilter genre movies =
        Except.ok (movies.filter fun m => decide (genre ∈ m.genres.getD []))) ∧
    ((∃ m ∈ movies, m.genres = none) →
      pyGenreFilter genre movies = Except.error Err.typeError) :=
  ⟨pyGenreFilter_ok genre movies, pyGenreFilter_error genre movies⟩

/-- C2 witness: the amended theorem applied to a genres-present list and to a
list containing a genres-absent record. -/
theorem C2_genre_filter_witness :
    pyGenreFilter ("Action") [movA, movB] =
      Except.ok ([movA, movB].filter fun m =>
        decide (("Action" : String) ∈ m.genres.getD [])) ∧
    pyGenreFilter ("Drama") [movNoGenres, movA] = Except.error Err.typeError :=
  ⟨(C2_genre_filter ("Action") [movA, movB]).1 (by decide),
   (C2_genre_filter ("Drama") [movNoGenres, movA]).2
      ⟨movNoGenres, List.mem_cons_self _ _, rfl⟩⟩

/-- C3: for every sort key, the sort step orders the snapshot by that key's
comparator (rating, gross and release descending with the `or`-default for
absent values; title ascending, case-sensitive), the sliced pipeline output is
ordered the same way, and any two records tied on the sort key (comparator
holds both ways) keep their relative order from the snapshot (stable sort). -/
theorem C3_sort_ordered_stable (s : SortOption) (l : List Movie) :
    (sortMovies s l).Pairwise (fun a b => sortLe s a b = true) ∧
    (∀ k : Int, (pySlice (sortMovies s l) k).Pairwise
      (fun a b => sortLe s a b = true)) ∧
    (∀ a b : Movie, sortLe s a b = true → sortLe s b a = true →
      [a, b].Sublist l → [a, b].Sublist (sortMovies s l)) := by
  have hsorted : (sortMovies s l).Pairwise (fun a b => sortLe s a b = true) := by
    have h := List.sorted_mergeSort (sortLe_trans s) (sortLe_total s) l
    simpa [sortMovies] using h
  refine ⟨hsorted, ?_, ?_⟩
  · intro k
    unfold pySlice
    split <;> exact List.Pairwise.sublist (List.take_sublist _ _) hsorted
  · intro a b hab _hba hsub
    exact List.pair_sublist_mergeSort (sortLe_trans s) (sortLe_total s) hab hsub

/-- C3 witness: two records tied on rating keep their snapshot order through
the rating sort. -/
theorem C3_sort_ordered_stable_witness :
    [movA, movB].Sublist (sortMovies SortOption.rating [movC, movA, movB]) :=
  (C3_sort_ordered_stable SortOption.rating [movC, movA, movB]).2.2 movA movB
    (by decide) (by decide)
    (List.Sublist.cons movC (List.Sublist.refl [movA, movB]))

theorem singleton_mapM_markupRow_error {m : Movie}
    (hr : m.averageRating = none) :
    ∃ e, [m].mapM markupRow = Except.error e := by
  refine except_not_ok_iff.mp ?_
  intro rows
  refine mapM_not_ok_of_mem (List.mem_cons_self m []) (fun b hb => ?_) rows
  simp [markupRow, hr] at hb

theorem pySlice_singleton {α : Type} (a : α) {k : Int} (hk : 1 ≤ k) :
    pySlice [a] k = [a] := by
  unfold pySlice
  rw [if_pos (by omega)]
  refine List.take_of_length_le ?_
  simp only [List.length_singleton]
  omega

theorem genre_fail_of_noRating (m : Movie) (genre : String) (limit : Int)
    (hr : m.averageRating = none) {gs : List String} (hgs : m.genres = some gs)
    (hmem : genre ∈ gs) (h1 : 1 ≤ limit) (h10 : limit ≤ 10) :
    get_movies_genre ⟨200, "", [m]⟩ genre limit =
      Except.error (Err.httpException 500 ("Internal server error")) := by
  have hok : limitOk limit = true := by
    simp only [limitOk, decide_eq_true_eq]
    exact h10
  have hfil : pyGenreFilter genre [m] = Except.ok [m] := by
    simp [pyGenreFilter, hgs, hmem]
  have hsel : genreSelect genre [m] limit = Except.ok [m] := by
    simp [genreSelect, hfil, except_map_ok, pySlice_singleton m h1]
  simp only [get_movies_genre, hok, if_true]
  rw [show get_box_office_movies ⟨200, "", [m]⟩ = Except.ok [m] from rfl]
  rw [except_bind_ok, hsel, except_bind_ok]
  exact catch500_of_error (singleton_mapM_markupRow_error hr)

theorem highest_fail_of_noRating (m : Movie) (limit : Int)
    (hr : m.averageRating = none)
    (hgross : truthyOptInt m.weekendGrossAmount = true)
    (h1 : 1 ≤ limit) (h10 : limit ≤ 10) :
    get_movies_highest_opening ⟨200, "", [m]⟩ limit =
      Except.error (Err.httpException 500 ("Internal server error")) := by
  have hok : limitOk limit = true := by
    simp only [limitOk, decide_eq_true_eq]
    exact h10
  have hsel : highestSelect [m] limit = [m] := by
    simp [highestSelect, List.filter_cons, hgross, List.mergeSort_singleton,
      pySlice_singleton m h1]
  simp only [get_movies_highest_opening, hok, if_true]
  rw [show get_box_office_movies ⟨200, "", [m]⟩ = Except.ok [m] from rfl]
  rw [except_bind_ok, hsel]
  exact catch500_of_error (singleton_mapM_markupRow_error hr)

/-- C4 counterexample: a genre-matching record with absent `averageRating`
reaches `getGenreTable`'s renderer (it is not pre-filtered out) and makes the
request fail with the 500 of the `except` block; likewise a gross-bearing
record with absent rating in `getHighestOpeningTable`. -/
theorem C4_counterexample :
    get_movies_genre ⟨200, "", [movNoRating]⟩ ("Action") 5 =
      Except.error (Err.httpException 500 ("Internal server error")) ∧
    get_movies_highest_opening ⟨200, "", [movNoRating]⟩ 5 =
      Except.error (Err.httpException 500 ("Internal server error")) :=
  ⟨rfl,
   highest_fail_of_noRating movNoRating 5 rfl rfl (by norm_num) (by norm_num)⟩

/-- C4 (amended): only `getRatingTable` pre-filters its input to rating-present
records; `getGenreTable` and `getHighestOpeningTable` do not — a record with
absent `averageRating` that passes their genre/gross filter is kept, reaches
the markup renderer, and makes the request fail with the 500 of the `except`
block rather than being excluded. -/
theorem C4_rating_prefilter (movies : List Movie) (genre : String)
    (limit : Int) (m : Movie) :
    (m ∈ ratingSelect movies limit → truthyOptRat m.averageRating = true) ∧
    (m.averageRating = none → markupRow m = Except.error Err.typeError) ∧
    (m.averageRating = none → ∀ gs, m.genres = some gs → genre ∈ gs →
      1 ≤ limit → limit ≤ 10 →
      get_movies_genre ⟨200, "", [m]⟩ genre limit =
        Except.error (Err.httpException 500 ("Internal server error"))) ∧
    (m.averageRating = none → truthyOptInt m.weekendGrossAmount = true →
      1 ≤ limit → limit ≤ 10 →
      get_movies_highest_opening ⟨200, "", [m]⟩ limit =
        Except.error (Err.httpException 500 ("Internal server error"))) := by
  refine ⟨?_, ?_, ?_, ?_⟩
  · intro hmem
    have h1 := mem_of_mem_pySlice hmem
    have h2 := List.mem_mergeSort.mp h1
    exact (List.mem_filter.mp h2).2
  · intro h
    simp [markupRow, h]
  · intro hr gs hgs hmem h1 h10
    exact genre_fail_of_noRating m genre limit hr hgs hmem h1 h10
  · intro hr hgross h1 h10
    exact highest_fail_of_noRating m limit hr hgross h1 h10

/-- C4 witness: the amended theorem applied to `movC` (a rating-present record)
and to `movNoRating` in the genre and highest-opening endpoints. -/
theorem C4_rating_prefilter_witness :
    (movNoRating ∈ ratingSelect [movC] 5 →
      truthyOptRat movNoRating.averageRating = true) ∧
    get_movies_genre ⟨200, "", [movNoRating]⟩ ("Action") 3 =
      Except.error (Err.httpException 500 ("Internal server error")) ∧
    get_movies_highest_opening ⟨200, "", [movNoRating]⟩ 3 =
      Except.error (Err.httpException 500 ("Internal server error")) :=
  ⟨(C4_rating_prefilter [movC] ("Action") 5 movNoRating).1,
   (C4_rating_prefilter [movNoRating] ("Action") 3 movNoRating).2.2.1 rfl
      (["Action"]) rfl (by decide) (by norm_num) (by norm_num),
   (C4_rating_prefilter [movNoRating] ("Action") 3 movNoRating).2.2.2 rfl
      rfl (by norm_num) (by norm_num)⟩

/-- C5: a record lacking `description` makes the text-table renderer fail
(Python raises `TypeError` at `len(None)`; the spec's taxonomy names this
renderer failure `IncompleteRecord`), and no successful row list is ever
produced from an input containing such a record. -/
theorem C5_missing_description (m : Movie) (hd : m.description = none) :
    tableRow m = Except.error Err.typeError ∧
    ∀ (l : List Movie) (rows : List (List String)),
      m ∈ l → l.mapM tableRow ≠ Except.ok rows := by
  have hrow : tableRow m = Except.error Err.typeError := by
    cases hr : m.averageRating with
    | none => simp [tableRow, hr]
    | some r => simp [tableRow, hr, hd]
  refine ⟨hrow, ?_⟩
  intro l rows hm
  exact mapM_not_ok_of_mem hm (fun b hb => by
    rw [hrow] at hb
    exact Except.noConfusion hb) rows

/-- C5 witness: the record `movNoDesc` fails the text-table row renderer. -/
theorem C5_missing_description_witness :
    tableRow movNoDesc = Except.error Err.typeError :=
  (C5_missing_description movNoDesc rfl).1

/-- C6 counterexample: on an upstream 503, `getRatingTable` fails with a 500
carrying `str(e)`, and `getGenreTable` with a 500 carrying a generic message —
not with the upstream's exact 503 status and body as the claim states for
every entry point. -/
theorem C6_counterexample :
    get_movies_rating resp503 5 =
      Except.error (Err.httpException 500 ("503: Service Unavailable")) ∧
    get_movies_genre resp503 ("Action") 5 =
      Except.error (Err.httpException 500 ("Internal server error")) :=
  ⟨rfl, rfl⟩

/-- C6 (amended): on a non-200 upstream status the fetch fails with an
`HTTPException` carrying the exact status code and body, and no entry point
produces partial output: `getSummaries` and `getTable` propagate that error
unchanged, while `getRatingTable` re-raises it as a 500 carrying `str(e)` and
`getGenreTable` / `getHighestOpeningTable` as a 500 with a generic message. -/
theorem C6_upstream_error (resp : UpstreamResponse) (sort_by : SortOption)
    (genre : String) (limit : Int) (hs : resp.statusCode ≠ 200)
    (hl : limit ≤ 10) :
    get_movies resp sort_by limit =
      Except.error (Err.httpException resp.statusCode resp.body) ∧
    get_movies_table resp sort_by limit =
      Except.error (Err.httpException resp.statusCode resp.body) ∧
    get_movies_rating resp limit =
      Except.error (Err.httpException 500
        (toString resp.statusCode ++ ": " ++ resp.body)) ∧
    get_movies_genre resp genre limit =
      Except.error (Err.httpException 500 ("Internal server error")) ∧
    get_movies_highest_opening resp limit =
      Except.error (Err.httpException 500 ("Internal server error")) := by
  have hok : limitOk limit = true := by
    simp only [limitOk, decide_eq_true_eq]
    exact hl
  have hfetch : get_box_office_movies resp =
      Except.error (Err.httpException resp.statusCode resp.body) := by
    unfold get_box_office_movies
    rw [if_pos hs]
  refine ⟨?_, ?_, ?_, ?_, ?_⟩ <;>
    simp [get_movies, get_movies_table, get_movies_rating, get_movies_genre,
      get_movies_highest_opening, hok, hfetch, catchStr, catch500, errStr,
      except_bind_error, except_map_error]

/-- C6 witness: the amended theorem applied to an upstream 503. -/
theorem C6_upstream_error_witness :
    get_movies resp503 SortOption.gross 5 =
      Except.error (Err.httpException resp503.statusCode resp503.body) :=
  (C6_upstream_error resp503 SortOption.gross ("Action") 5
    (by decide) (by decide)).1

/-- C7 counterexample: with a snapshot containing a genres-absent record
(`movNoGenres`), `getGenreTable` produces no output at all (it fails with the
500 of the `except` block), so no output length equals
min(limit, filtered count) — the claim's equality fails for this fetched
record set. -/
theorem C7_counterexample :
    get_movies_genre ⟨200, "", [movA, movNoGenres]⟩ ("Drama") 2 =
      Except.error (Err.httpException 500 ("Internal server error")) ∧
    ¬∃ out, get_movies_genre ⟨200, "", [movA, movNoGenres]⟩ ("Drama") 2 =
      Except.ok out := by
  have h : get_movies_genre ⟨200, "", [movA, movNoGenres]⟩ ("Drama") 2 =
      Except.error (Err.httpException 500 ("Internal server error")) := rfl
  refine ⟨h, ?_⟩
  rintro ⟨out, hout⟩
  rw [h] at hout
  exact Except.noConfusion hout

/-- C7 (amended): for every limit L in [1,10], the summaries pipeline output
has length exactly min(L, record count); and provided every record's `genres`
field is present, the genre selection succeeds with length exactly
min(L, genre-match count).  (A genres-absent record instead fails the genre
request, per the C7 counterexample.) -/
theorem C7_output_length (resp : UpstreamResponse) (sort_by : SortOption)
    (genre : String) (limit : Int) (h1 : 1 ≤ limit) (h10 : limit ≤ 10)
    (h200 : resp.statusCode = 200) :
    (get_movies resp sort_by limit =
      Except.ok (pySlice (sortMovies sort_by resp.payload) limit) ∧
     (pySlice (sortMovies sort_by resp.payload) limit).length =
      min limit.toNat resp.payload.length) ∧
    ((∀ m ∈ resp.payload, m.genres ≠ none) →
      genreSelect genre resp.payload limit =
        Except.ok (pySlice
          (resp.payload.filter fun m => decide (genre ∈ m.genres.getD []))
          limit) ∧
      (pySlice (resp.payload.filter fun m => decide (genre ∈ m.genres.getD []))
          limit).length =
        min limit.toNat
          (resp.payload.filter fun m =>
            decide (genre ∈ m.genres.getD [])).length) := by
  have hok : limitOk limit = true := by
    simp only [limitOk, decide_eq_true_eq]
    exact h10
  constructor
  · constructor
    · simp only [get_movies, hok, get_box_office_movies, h200, if_true]
      rfl
    · rw [length_pySlice _ (by omega)]
      have hperm := List.mergeSort_perm resp.payload (sortLe sort_by)
      rw [show sortMovies sort_by resp.payload =
        resp.payload.mergeSort (sortLe sort_by) from rfl, hperm.length_eq]
  · intro hall
    constructor
    · simp [genreSelect, pyGenreFilter_ok genre resp.payload hall,
        except_map_ok]
    · rw [length_pySlice _ (by omega)]

/-- C7 witness: the amended theorem applied to the two-record snapshot
`respAB` with limit 5. -/
theorem C7_output_length_witness :
    get_movies respAB SortOption.gross 5 =
      Except.ok (pySlice (sortMovies SortOption.gross respAB.payload) 5) ∧
    (pySlice (sortMovies SortOption.gross respAB.payload) 5).length =
      min (Int.toNat 5) respAB.payload.length :=
  (C7_output_length respAB SortOption.gross ("Action") 5 (by norm_num)
    (by norm_num) rfl).1

/-- C8: a record whose `weekendGrossAmount` is present but equal to 0 is
treated exactly as if the field were absent: both the text and markup gross
cells show the placeholder (as for an absent field), and the highest-opening
selection excludes the record entirely. -/
theorem C8_zero_gross (m : Movie) (movies : List Movie) (limit : Int)
    (h0 : m.weekendGrossAmount = some 0) :
    grossCellText m.weekendGrossAmount = "N/A" ∧
    grossCellText none = "N/A" ∧
    grossCellMarkup m.weekendGrossAmount = "N/A" ∧
    grossCellMarkup none = "N/A" ∧
    m ∉ highestSelect movies limit := by
  refine ⟨by simp [grossCellText, h0, truthyOptInt], rfl,
    by simp [grossCellMarkup, h0, truthyOptInt], rfl, ?_⟩
  intro hmem
  have h1 := mem_of_mem_pySlice hmem
  have h2 := List.mem_mergeSort.mp h1
  have h3 := (List.mem_filter.mp h2).2
  rw [h0] at h3
  simp [truthyOptInt] at h3

/-- C8 witness: the record `movZeroGross` (gross present and 0) renders as the
placeholder and is excluded from the highest-opening selection. -/
theorem C8_zero_gross_witness :
    grossCellText movZeroGross.weekendGrossAmount = "N/A" ∧
    movZeroGross ∉ highestSelect [movZeroGross, movA] 5 :=
  ⟨(C8_zero_gross movZeroGross [movZeroGross, movA] 5 rfl).1,
   (C8_zero_gross movZeroGross [movZeroGross, movA] 5 rfl).2.2.2.2⟩

/-- C9 counterexample: on a snapshot containing a genres-absent record the
genre selection fails with `TypeError` instead of producing the first
min(limit, match count) matching records. -/
theorem C9_counterexample :
    genreSelect ("Comedy") [movB, movNoGenres] 3 =
      Except.error Err.typeError := by
  have h := pyGenreFilter_error ("Comedy") [movB, movNoGenres]
    ⟨movNoGenres, by simp, rfl⟩
  simp [genreSelect, h, except_map_error]

/-- C9 (amended): `getGenreTable` applies no sort: whenever every record's
`genres` field is present, its selection is exactly the first
min(limit, match count) genre-matching records in their upstream snapshot
order — the `take` of the filtered list; a genres-absent record instead fails
the request. -/
theorem C9_genre_no_sort (genre : String) (movies : List Movie) (limit : Int)
    (hall : ∀ m ∈ movies, m.genres ≠ none) (hk : 0 ≤ limit) :
    genreSelect genre movies limit =
      Except.ok ((movies.filter fun m =>
        decide (genre ∈ m.genres.getD [])).take limit.toNat) ∧
    ((movies.filter fun m =>
        decide (genre ∈ m.genres.getD [])).take limit.toNat).length =
      min limit.toNat
        (movies.filter fun m => decide (genre ∈ m.genres.getD [])).length := by
  constructor
  · simp [genreSelect, pyGenreFilter_ok genre movies hall, except_map_ok,
      pySlice, hk]
  · rw [List.length_take]

/-- C9 witness: the amended theorem applied to a three-record snapshot with
limit 1. -/
theorem C9_genre_no_sort_witness :
    genreSelect ("Action") [movC, movB, movA] 1 =
      Except.ok (([movC, movB, movA].filter fun m =>
        decide (("Action" : String) ∈ m.genres.getD [])).take (Int.toNat 1)) :=
  (C9_genre_no_sort ("Action") [movC, movB, movA] 1 (by decide)
    (by norm_num)).1

/-- C10: a record whose `averageRating` is present but equal to 0.0 is excluded
from `getRatingTable`'s selection, exactly as if the rating were absent
(Python truthiness drops both). -/
theorem C10_zero_rating (m : Movie) (movies : List Movie) (limit : Int)
    (h0 : m.averageRating = some 0) :
    m ∉ ratingSelect movies limit := by
  intro hmem
  have h1 := mem_of_mem_pySlice hmem
  have h2 := List.mem_mergeSort.mp h1
  have h3 := (List.mem_filter.mp h2).2
  rw [h0] at h3
  simp [truthyOptRat] at h3

/-- C10 witness: the record `movZeroRating` (rating present and 0.0) is
excluded from the rating selection. -/
theorem C10_zero_rating_witness :
    movZeroRating ∉ ratingSelect [movZeroRating, movC] 5 :=
  C10_zero_rating movZeroRating [movZeroRating, movC] 5 rfl

end BoxOffice
